import Mathlib

/-!
Verification of the mediaweb server (mediaweb.go) against its
natural-language specification.  The development shallowly embeds the
path manipulation functions of Go's `path/filepath` package (Unix
semantics), the content classifier, the three request handlers
(`handleDir`, `handleFile`, `handleDownload`) and the router
(`handlerFunc`), and proves the specified properties about them.
-/

set_option maxRecDepth 100000

/-- Decidable equality for `Except` results. -/
instance instDecEqExcept {ε α : Type} [DecidableEq ε] [DecidableEq α] :
    DecidableEq (Except ε α) := fun a b =>
  match a, b with
  | .ok x, .ok y =>
    if h : x = y then .isTrue (by rw [h])
    else .isFalse (fun hc => h (by injection hc))
  | .error x, .error y =>
    if h : x = y then .isTrue (by rw [h])
    else .isFalse (fun hc => h (by injection hc))
  | .ok _, .error _ => .isFalse (fun hc => Except.noConfusion hc)
  | .error _, .ok _ => .isFalse (fun hc => Except.noConfusion hc)

namespace Mediaweb

/-! ## Go `path/filepath` model (Unix separator) -/

/-- Split a character list on the separator character (kernel-reducible
counterpart of `String.splitOn`). -/
def splitSegs : List Char → List (List Char)
  | [] => [[]]
  | c :: cs =>
    let r := splitSegs cs
    if c = '/' then [] :: r
    else
      match r with
      | s :: ss => (c :: s) :: ss
      | [] => [[c]]

/-- Segments of a path: split on the separator, dropping empty and "."
components (these are eliminated by Go's `filepath.Clean`). -/
def parseSegs (p : String) : List String :=
  ((splitSegs p.data).map (fun l => String.mk l)).filter (fun s => s != "" && s != ".")

/-- Whether a path is absolute (Unix: starts with the separator). -/
def goIsAbs (p : String) : Bool :=
  match p.data with
  | c :: _ => c = '/'
  | [] => false

/-- One step of `..`-resolution over a stack of already-emitted segments
(stored in reverse).  Mirrors the loop of Go's `filepath.Clean`: a `..`
pops a previous non-`..` segment, is dropped at the root of a rooted
path, and is kept in a relative path that cannot pop. -/
def pushSeg (rooted : Bool) (stack : List String) (seg : String) : List String :=
  if seg = ".." then
    match stack with
    | [] => if rooted then [] else [".."]
    | top :: rest => if top = ".." then seg :: stack else rest
  else seg :: stack

/-- Resolve `.`/`..` lexically over a segment list, as `filepath.Clean` does. -/
def cleanSegs (rooted : Bool) (segs : List String) : List String :=
  (segs.foldl (pushSeg rooted) []).reverse

/-- Join segments with the separator (kernel-reducible counterpart of
`String.intercalate "/"`). -/
def joinSegs : List String → String
  | [] => ""
  | [s] => s
  | s :: ss => s ++ "/" ++ joinSegs ss

/-- Go `filepath.Clean` on Unix: lexical cleaning of a path string. -/
def goClean (p : String) : String :=
  let rooted := goIsAbs p
  let segs := cleanSegs rooted (parseSegs p)
  if segs = [] then (if rooted then "/" else ".")
  else (if rooted then "/" else "") ++ joinSegs segs

/-- Go `filepath.Join` for two elements: empty elements are skipped and
the separator-joined result is cleaned. -/
def goJoin (a b : String) : String :=
  if a = "" && b = "" then ""
  else if a = "" then goClean b
  else goClean (a ++ "/" ++ b)

/-- Go `filepath.Abs`: already-absolute paths are cleaned, relative ones
are joined onto the process working directory.  (On Unix `Abs` can only
fail if `Getwd` fails, which we model as impossible; the corresponding
error branches of the handlers are dead.) -/
def goAbs (cwd p : String) : String :=
  if goIsAbs p then goClean p else goJoin cwd p

/-- Literal prefix test on lists (kernel-reducible counterpart of
`String.isPrefixOf` / byte-signature matching). -/
def listIsPre {α : Type} [DecidableEq α] : List α → List α → Bool
  | [], _ => true
  | _ :: _, [] => false
  | a :: as, b :: bs => a = b && listIsPre as bs

/-- Go `filepath.HasPrefix(p, pre)` on Unix: a literal string-prefix
test (`strings.HasPrefix`), with no path-separator awareness. -/
def goHasPrefix (p pre : String) : Bool := listIsPre pre.data p.data

/-- Length of the longest common prefix of two lists. -/
def commonLen : List String → List String → Nat
  | a :: as, b :: bs => if a = b then commonLen as bs + 1 else 0
  | _, _ => 0

/-- Go `filepath.Rel(base, targ)` on Unix, segment-wise: clean both,
equal paths yield ".", mixed absolute/relative is an error, otherwise
strip the common leading segments and climb out of what remains of the
base (an error if the base still starts with `..`). -/
def goRel (base targ : String) : Except String String :=
  let b := goClean base
  let t := goClean targ
  if b = t then .ok "."
  else if goIsAbs b != goIsAbs t then
    .error ("Rel: can\x27t make " ++ targ ++ " relative to " ++ base)
  else
    let bsegs := if b = "." then [] else parseSegs b
    let tsegs := if t = "." then [] else parseSegs t
    let n := commonLen bsegs tsegs
    let brest := bsegs.drop n
    let trest := tsegs.drop n
    if brest.head? = some ".." then
      .error ("Rel: can\x27t make " ++ targ ++ " relative to " ++ base)
    else
      .ok (joinSegs (List.replicate brest.length ".." ++ trest))

example : goClean "/srv/media//../media2/x" = "/srv/media2/x" := by decide
example : goClean "" = "." := by decide
example : goClean "/.." = "/" := by decide
example : goClean "a/../../b" = "../b" := by decide
example : goJoin "/srv/media" "/../etc/passwd" = "/srv/etc/passwd" := by decide
example : goRel "/_download" "/_download/a/b.mp4" = .ok "a/b.mp4" := by rfl
example : goRel "/_download" "/_download/../media2/x" = .ok "../media2/x" := by rfl
example : goRel "/_download" "x" = .error "Rel: can\x27t make x relative to /_download" := by rfl
example : goHasPrefix "/srv/media2/x" "/srv/media" = true := by decide

/-! ## Content classifier model

Modelled from the spec: the `gopkg.in/h2non/filetype.v1` library called by
the handlers is not part of this repository's source.  Per spec 4.2 it
reads a small fixed-size prefix of a file's bytes (261 bytes), matches it
against a table of binary signatures to produce a MIME type/subtype pair
and an extension label, returns an "unknown" kind (empty MIME value) when
no signature matches, and propagates only I/O errors. -/

/-- A MIME classification result: top-level type, subtype, and the full
`type/subtype` value string. -/
structure MIME where
  type : String
  subtype : String
  value : String
deriving DecidableEq

/-- The classifier's result: a MIME classification plus a short
extension label. -/
structure FileType where
  mime : MIME
  extension : String
deriving DecidableEq

/-- The library's `Unknown` kind: empty MIME fields, extension label
"unknown". -/
def unknownKind : FileType := ⟨⟨"", "", ""⟩, "unknown"⟩

/-- Does the byte signature `sig` occur at offset `off` of `bs`? -/
def sigAt (bs : List Nat) (off : Nat) (sig : List Nat) : Bool :=
  listIsPre sig (bs.drop off)

/-- MP4 signature: `ftyp` box marker at offset 4 (needs at least 12 bytes). -/
def isMp4 (bs : List Nat) : Bool :=
  Nat.ble 12 bs.length && sigAt bs 4 [0x66, 0x74, 0x79, 0x70]

/-- PNG signature at offset 0. -/
def isPng (bs : List Nat) : Bool := sigAt bs 0 [0x89, 0x50, 0x4E, 0x47]

/-- PDF signature (`%PDF`) at offset 0. -/
def isPdf (bs : List Nat) : Bool := sigAt bs 0 [0x25, 0x50, 0x44, 0x46]

/-- Modelled from the spec: the signature table of the content
classifier (a representative subset of the library's table).  A pure
function of the leading bytes only. -/
def matchBytes (bs : List Nat) : FileType :=
  if isMp4 bs then ⟨⟨"video", "mp4", "video/mp4"⟩, "mp4"⟩
  else if isPng bs then ⟨⟨"image", "png", "image/png"⟩, "png"⟩
  else if isPdf bs then ⟨⟨"application", "pdf", "application/pdf"⟩, "pdf"⟩
  else unknownKind

/-! ## Filesystem and response model -/

/-- One result of `os.File.Readdir`: the child's base name and whether
it is a directory. -/
structure FileInfo where
  name : String
  isDir : Bool
deriving DecidableEq

/-- Abstract read-only filesystem, as seen through the operations the
server performs.  Each operation may fail with an error message. -/
structure FS where
  /-- `os.Open`: `some msg` means opening fails with that error. -/
  openErr : String → Option String
  /-- `File.Stat`: `some msg` means stat fails with that error. -/
  statErr : String → Option String
  /-- Whether the stat'd target is a directory. -/
  isDir : String → Bool
  /-- Reading the file's bytes (for sniffing and for the download copy):
  `some msg` means the read fails with that error. -/
  readErr : String → Option String
  /-- The file's content bytes. -/
  bytes : String → List Nat
  /-- `File.Readdir`: `some msg` means enumeration fails with that error. -/
  readdirErr : String → Option String
  /-- `File.Readdir`: the directory's children, in enumeration order. -/
  children : String → List FileInfo

/-- Model of `filetype.MatchFile`: opens the file, reads its first 261
bytes and matches them against the signature table; only I/O failures
are errors. -/
def matchFile (fs : FS) (path : String) : Except String FileType :=
  match fs.readErr path with
  | some e => .error e
  | none => .ok (matchBytes ((fs.bytes path).take 261))

/-- A response body: template/error output (text) or a raw byte stream. -/
inductive Body where
  | text (s : String)
  | bytes (bs : List Nat)
deriving DecidableEq

/-- An HTTP response: status code, headers in the order they were added,
and the body. -/
structure Response where
  status : Nat
  headers : List (String × String)
  body : Body
deriving DecidableEq

/-- Go's `http.Error`: keeps the headers added so far, sets the
plain-text content type headers, and writes the message plus a newline
with the given status code. -/
def httpError (hdrs : List (String × String)) (msg : String) (code : Nat) : Response :=
  { status := code
    headers := hdrs ++ [("Content-Type", "text/plain; charset=utf-8"),
                        ("X-Content-Type-Options", "nosniff")]
    body := .text (msg ++ "\n") }

/-- First value of a header key in a response, if present. -/
def lookupHeader (k : String) (r : Response) : Option String :=
  (r.headers.find? (fun kv => kv.1 == k)).map (fun kv => kv.2)

/-- The constant download route prefix of mediaweb.go. -/
def downloadPrefix : String := "/_download"

/-! ## Templates

`dirTemplate` and `fileTemplate` are `text/template` values; rendering
them substitutes the actions (`\x7b\x7b...\x7d\x7d`) and emits the
literal text, newlines included, verbatim. -/

/-- One entry of a directory listing (the `dirEntry` struct of
mediaweb.go). -/
structure dirEntry where
  BuildLink : Bool
  Name : String
  «Type» : String
deriving DecidableEq

/-- Rendering of one iteration of `dirTemplate`'s range body for entry
`e` with template variable `$parent`: a linked list item when
`.BuildLink` is set, a plain one otherwise.  The link target and the
displayed text are both `join $parent .Name`; the entry's `Type` field
is not referenced by the template. -/
def renderDirEntry (parent : String) (e : dirEntry) : String :=
  let l := goJoin parent e.Name
  if e.BuildLink then
    "\n\n<li><a href=\"" ++ l ++ "\">" ++ l ++ "</a></li>\n\n"
  else
    "\n\n<li>" ++ l ++ "</li>\n\n"

/-- Concatenation of the rendered entries. -/
def renderDirEntries (parent : String) : List dirEntry → String
  | [] => ""
  | e :: es => renderDirEntry parent e ++ renderDirEntries parent es

/-- Full rendering of `dirTemplate` with data `title`, `parent` and
`files`. -/
def renderDirPage (title parent : String) (es : List dirEntry) : String :=
  "<html>\n<head>\n<title>" ++ title ++
  "</title>\n<style>\nbody \x7b\n  font-size: xx-large;\n\x7d\n</style>\n</head>\n<body>\n<ul>\n\n" ++
  renderDirEntries parent es ++
  "\n</ul>\n</body>\n</html>\n"

/-- Full rendering of `fileTemplate`: a video player page whose source
attribute is `src` and whose type attribute is `ty`. -/
def renderFilePage (src ty : String) : String :=
  "<head>\n  <link href=\"http://vjs.zencdn.net/6.4.0/video-js.css\" rel=\"stylesheet\">\n\n  <!-- If you\x27d like to support IE8 -->\n  <script src=\"http://vjs.zencdn.net/ie8/1.1.2/videojs-ie8.min.js\"></script>\n</head>\n\n<body>\n  <video id=\"my-video\" class=\"video-js\" controls preload=\"auto\" width=\"640\" height=\"264\"\n  data-setup=\"\x7b\x7d\">\n    <source src=\"" ++
  src ++ "\" type=\x27" ++ ty ++
  "\x27>\n    <p class=\"vjs-no-js\">\n      To view this video please enable JavaScript, and consider upgrading to a web browser that\n      <a href=\"http://videojs.com/html5-video-support/\" target=\"_blank\">supports HTML5 video</a>\n    </p>\n  </video>\n\n  <script src=\"http://vjs.zencdn.net/6.4.0/video.js\"></script>\n</body>\n"

/-- Go's `fmt.Sprintf("%+v", fileType)` on the classifier's result
struct. -/
def fmtFileType (ft : FileType) : String :=
  "\x7bMIME:\x7bType:" ++ ft.mime.type ++ " Subtype:" ++ ft.mime.subtype ++
  " Value:" ++ ft.mime.value ++ "\x7d Extension:" ++ ft.extension ++ "\x7d"

/-! ## Handlers -/

/-- The loop body of `handleDir`: a directory child becomes a navigable
entry labelled "directory"; any other child is classified, becomes
navigable exactly when its top-level MIME type is "video", and is
labelled with the sniffed extension.  A classification I/O failure is an
error. -/
def classifyInfo (fs : FS) (dirName : String) (info : FileInfo) : Except String dirEntry :=
  if info.isDir then .ok ⟨true, info.name, "directory"⟩
  else
    match matchFile fs (goJoin dirName info.name) with
    | .error e => .error e
    | .ok ft => .ok ⟨ft.mime.type == "video", info.name, ft.extension⟩

/-- The entry-building loop of `handleDir` over the Readdir results:
stops at the first classification failure. -/
def buildEntries (fs : FS) (dirName : String) : List FileInfo → Except String (List dirEntry)
  | [] => .ok []
  | info :: infos =>
    match classifyInfo fs dirName info with
    | .error e => .error e
    | .ok e =>
      match buildEntries fs dirName infos with
      | .error e2 => .error e2
      | .ok es => .ok (e :: es)

/-- `handleDir` of mediaweb.go: adds the handler header, enumerates the
directory (500 on failure), classifies every child (500 on the first
failure, before anything is written), then renders `dirTemplate` with
title = the opened path and parent = `filepath.Join("/", r.URL.Path)`.
(The template-execution error branch cannot fail in this model.) -/
def handleDir (fs : FS) (dirName urlPath : String) : Response :=
  let hdrs := [("X-Mediaweb-Handler", "dir")]
  match fs.readdirErr dirName with
  | some e => httpError hdrs e 500
  | none =>
    match buildEntries fs dirName (fs.children dirName) with
    | .error e => httpError hdrs e 500
    | .ok es =>
      { status := 200
        headers := hdrs
        body := .text (renderDirPage dirName (goJoin "/" urlPath) es) }

/-- `handleFile` of mediaweb.go: adds the handler header, classifies the
opened file (500 on I/O failure), adds the sniffed-type diagnostic
header, and renders `fileTemplate` with source
`join downloadPrefix (join "/" r.URL.Path)` and the classified MIME
value as the type attribute. -/
def handleFile (fs : FS) (fileName urlPath : String) : Response :=
  let hdrs := [("X-Mediaweb-Handler", "file")]
  match matchFile fs fileName with
  | .error e => httpError hdrs e 500
  | .ok ft =>
    { status := 200
      headers := hdrs ++ [("X-Mediaweb-Type", fmtFileType ft)]
      body := .text (renderFilePage (goJoin downloadPrefix (goJoin "/" urlPath)) ft.mime.value) }

/-- `handleDownload` of mediaweb.go: adds the handler header, strips the
download route prefix with `filepath.Rel` (400 on failure), re-resolves
the stripped path against the root and re-checks confinement with the
literal string-prefix test (400 on failure), classifies the target (500
on I/O failure), sets `Content-Type` to the classified MIME value, opens
the file (500 on failure) and copies its bytes verbatim to the response
(an I/O failure during the copy reaches the `http.Error` call). -/
def handleDownload (fs : FS) (cwd dir urlPath : String) : Response :=
  let hdrs := [("X-Mediaweb-Handler", "download")]
  match goRel downloadPrefix urlPath with
  | .error e => httpError hdrs e 400
  | .ok rel =>
    let realPath := goAbs cwd (goJoin dir rel)
    if !(goHasPrefix realPath dir) then httpError hdrs "outside allowed path" 400
    else
      match matchFile fs realPath with
      | .error e => httpError hdrs e 500
      | .ok ft =>
        let hdrs := hdrs ++ [("Content-Type", ft.mime.value)]
        match fs.openErr realPath with
        | some e => httpError hdrs e 500
        | none =>
          match fs.readErr realPath with
          | some e => httpError hdrs e 500
          | none => { status := 200, headers := hdrs, body := .bytes (fs.bytes realPath) }

/-- `handlerFunc` of mediaweb.go: requests whose path has the literal
string prefix "/_download" go to the download handler; otherwise the
path is joined onto the root, made absolute, and confinement is checked
with the literal string-prefix test (400 on failure); then the target is
opened (400 on failure) and stat'd (500 on failure), directories go to
`handleDir` and everything else to `handleFile`.  (`filepath.Abs` cannot
fail in this model, so that 400 branch is dead.) -/
def handlerFunc (fs : FS) (cwd dir urlPath : String) : Response :=
  if goHasPrefix urlPath "/_download" then handleDownload fs cwd dir urlPath
  else
    let realPath := goAbs cwd (goJoin dir urlPath)
    if !(goHasPrefix realPath dir) then httpError [] "outside allowed path" 400
    else
      match fs.openErr realPath with
      | some e => httpError [] e 400
      | none =>
        match fs.statErr realPath with
        | some e => httpError [] e 500
        | none =>
          if fs.isDir realPath then handleDir fs realPath urlPath
          else handleFile fs realPath urlPath

/-- The listing entry that `handleDir`'s loop produces for one child. -/
def entryOf (fs : FS) (d : String) (info : FileInfo) : dirEntry :=
  if info.isDir then ⟨true, info.name, "directory"⟩
  else
    ⟨(matchBytes ((fs.bytes (goJoin d info.name)).take 261)).mime.type == "video", info.name,
     (matchBytes ((fs.bytes (goJoin d info.name)).take 261)).extension⟩

/-- Substring occurrence test on lists. -/
def listHasSub {α : Type} [DecidableEq α] : List α → List α → Bool
  | [], needle => listIsPre needle []
  | l@(_ :: rest), needle => listIsPre needle l || listHasSub rest needle

/-- Substring occurrence test on strings. -/
def strContains (s pat : String) : Bool := listHasSub s.data pat.data

/-- The text of a body (empty for raw byte bodies). -/
def bodyText : Body → String
  | .text s => s
  | .bytes _ => ""

/-! ## Concrete filesystems for witnesses and counterexamples -/

/-- Bytes of a minimal MP4 file (`ftyp` box at offset 4). -/
def mp4Bytes : List Nat :=
  [0, 0, 0, 24, 0x66, 0x74, 0x79, 0x70, 0x69, 0x73, 0x6F, 0x6D, 0, 0, 0, 0]

/-- Bytes starting with the PNG signature. -/
def pngBytes : List Nat := [0x89, 0x50, 0x4E, 0x47, 0x0D, 0x0A, 0x1A, 0x0A]

/-- The spec's example tree: root `/srv/media` with subdirectory
`movies`, text file `notes.txt` and MP4 file `clip.mp4`; a sibling
directory `/srv/media2` holds `secret.png` (outside the root). -/
def fsDemo : FS :=
  { openErr := fun _ => none
    statErr := fun _ => none
    isDir := fun p => p == "/srv/media" || p == "/srv/media/movies" || p == "/srv/media2"
    readErr := fun _ => none
    bytes := fun p =>
      if p == "/srv/media/clip.mp4" then mp4Bytes
      else if p == "/srv/media/notes.txt" then [0x68, 0x69]
      else if p == "/srv/media2/secret.png" then pngBytes
      else []
    readdirErr := fun _ => none
    children := fun p =>
      if p == "/srv/media" then [⟨"movies", true⟩, ⟨"notes.txt", false⟩, ⟨"clip.mp4", false⟩]
      else [] }

/-- A filesystem where opening one path and stat'ing another fail. -/
def fsErr : FS :=
  { openErr := fun p => if p == "/srv/media/gone" then some "open fail" else none
    statErr := fun p => if p == "/srv/media/nostat" then some "stat fail" else none
    isDir := fun _ => false
    readErr := fun _ => none
    bytes := fun _ => []
    readdirErr := fun _ => none
    children := fun _ => [] }

/-- A filesystem whose directory `/srv/media` holds one readable MP4
and one unreadable file. -/
def fsFail : FS :=
  { openErr := fun _ => none
    statErr := fun _ => none
    isDir := fun p => p == "/srv/media"
    readErr := fun p => if p == "/srv/media/bad.bin" then some "io fail" else none
    bytes := fun p => if p == "/srv/media/clip.mp4" then mp4Bytes else []
    readdirErr := fun _ => none
    children := fun p =>
      if p == "/srv/media" then [⟨"clip.mp4", false⟩, ⟨"bad.bin", false⟩] else [] }

/-- A copy of the example tree in which the MP4 bytes live under the
extension-less name `video.txt`. -/
def fsRenamed : FS :=
  { openErr := fun _ => none
    statErr := fun _ => none
    isDir := fun _ => false
    readErr := fun _ => none
    bytes := fun p => if p == "/srv/media/video.txt" then mp4Bytes else []
    readdirErr := fun _ => none
    children := fun _ => [] }

/-- A directory `/d` holding a single PNG-signature file whose name does
not mention its type. -/
def fsPngDir : FS :=
  { openErr := fun _ => none
    statErr := fun _ => none
    isDir := fun p => p == "/d"
    readErr := fun _ => none
    bytes := fun p => if p == "/d/image1.dat" then pngBytes else []
    readdirErr := fun _ => none
    children := fun p => if p == "/d" then [⟨"image1.dat", false⟩] else [] }

example : handlerFunc fsDemo "/" "/srv/media" "/../etc/passwd"
    = httpError [] "outside allowed path" 400 := by decide
example : (handlerFunc fsDemo "/" "/srv/media" "/clip.mp4").status = 200 := by decide
example : (handlerFunc fsDemo "/" "/srv/media" "/clip.mp4").body
    = .text (renderFilePage "/_download/clip.mp4" "video/mp4") := by decide
example : (handlerFunc fsDemo "/" "/srv/media" "/_download/clip.mp4").body
    = .bytes mp4Bytes := by decide
example : lookupHeader "Content-Type" (handlerFunc fsDemo "/" "/srv/media" "/_download/clip.mp4")
    = some "video/mp4" := by decide
example : buildEntries fsDemo "/srv/media" (fsDemo.children "/srv/media")
    = .ok [⟨true, "movies", "directory"⟩, ⟨false, "notes.txt", "unknown"⟩,
           ⟨true, "clip.mp4", "mp4"⟩] := by decide
example : (handlerFunc fsDemo "/" "/srv/media" "/../media2/secret.png").status = 200 := by decide

/-! ## Helper lemmas -/

/-- A successful classification is exactly the signature match on the
file's first 261 bytes. -/
theorem matchFile_ok (fs : FS) (x : String) (ft : FileType)
    (h : matchFile fs x = .ok ft) :
    fs.readErr x = none ∧ ft = matchBytes ((fs.bytes x).take 261) := by
  unfold matchFile at h
  cases hr : fs.readErr x with
  | some e => rw [hr] at h; exact absurd h (by simp)
  | none => rw [hr] at h; exact ⟨rfl, by injection h with h2; exact h2.symm⟩

/-- A successful entry-building loop yields exactly one `entryOf` per
child, in enumeration order. -/
theorem buildEntries_ok (fs : FS) (d : String) (infos : List FileInfo) (es : List dirEntry)
    (h : buildEntries fs d infos = .ok es) : es = infos.map (entryOf fs d) := by
  induction infos generalizing es with
  | nil =>
    unfold buildEntries at h
    injection h with h2
    simp [h2.symm]
  | cons info infos ih =>
    unfold buildEntries at h
    cases hc : classifyInfo fs d info with
    | error e => rw [hc] at h; exact absurd h (by simp)
    | ok e =>
      rw [hc] at h
      cases hb : buildEntries fs d infos with
      | error e2 => rw [hb] at h; exact absurd h (by simp)
      | ok es2 =>
        rw [hb] at h
        injection h with h2
        subst h2
        have hes : es2 = infos.map (entryOf fs d) := ih es2 hb
        have he : e = entryOf fs d info := by
          unfold classifyInfo at hc
          unfold entryOf
          cases hd : info.isDir with
          | true =>
            rw [hd] at hc
            simp at hc
            simp [hc.symm]
          | false =>
            rw [hd] at hc
            simp only [Bool.false_eq_true, if_false] at hc ⊢
            cases hm : matchFile fs (goJoin d info.name) with
            | error e3 => rw [hm] at hc; exact absurd hc (by simp)
            | ok ft =>
              rw [hm] at hc
              injection hc with hc2
              obtain ⟨-, hft⟩ := matchFile_ok fs (goJoin d info.name) ft hm
              rw [← hc2, hft]

        rw [he, hes]
        rfl

/-- A failing entry-building loop fails with the classification error of
some non-directory child. -/
theorem buildEntries_error (fs : FS) (d : String) (infos : List FileInfo) (e : String)
    (h : buildEntries fs d infos = .error e) :
    ∃ info ∈ infos, info.isDir = false ∧ matchFile fs (goJoin d info.name) = .error e := by
  induction infos with
  | nil => unfold buildEntries at h; exact absurd h (by simp)
  | cons info infos ih =>
    unfold buildEntries at h
    cases hc : classifyInfo fs d info with
    | error e1 =>
      rw [hc] at h
      injection h with h2
      subst h2
      unfold classifyInfo at hc
      cases hd : info.isDir with
      | true => rw [hd] at hc; exact absurd hc (by simp)
      | false =>
        rw [hd] at hc
        simp only [Bool.false_eq_true, if_false] at hc
        cases hm : matchFile fs (goJoin d info.name) with
        | error e2 =>
          rw [hm] at hc
          injection hc with hc2
          exact ⟨info, List.mem_cons_self _ _, hd, by rw [hm, hc2]⟩
        | ok ft => rw [hm] at hc; exact absurd hc (by simp)
    | ok e0 =>
      rw [hc] at h
      cases hb : buildEntries fs d infos with
      | error e2 =>
        rw [hb] at h
        injection h with h2
        subst h2
        obtain ⟨i, hmem, hd, hm⟩ := ih hb
        exact ⟨i, List.mem_cons_of_mem _ hmem, hd, hm⟩
      | ok es2 => rw [hb] at h; exact absurd h (by simp)

/-- If some non-directory child's classification fails, the
entry-building loop fails. -/
theorem buildEntries_error_of_mem (fs : FS) (d : String) (infos : List FileInfo)
    (info : FileInfo) (msg : String) (hmem : info ∈ infos) (hdir : info.isDir = false)
    (hfail : matchFile fs (goJoin d info.name) = .error msg) :
    ∃ e, buildEntries fs d infos = .error e := by
  induction infos with
  | nil => cases hmem
  | cons i is ih =>
    unfold buildEntries
    cases hc : classifyInfo fs d i with
    | error e => exact ⟨e, rfl⟩
    | ok e0 =>
      rcases List.mem_cons.mp hmem with heq | hmem2
      · subst heq
        unfold classifyInfo at hc
        rw [hdir] at hc
        simp only [Bool.false_eq_true, if_false] at hc
        rw [hfail] at hc
        exact absurd hc (by simp)
      · obtain ⟨e, he⟩ := ih hmem2
        rw [he]
        exact ⟨e, rfl⟩

/-! ## Claim theorems -/

/-- C1: for every root and request path, if the absolute lexically
cleaned join of root and path does not have the root as a literal
string prefix, the main handler (on non-download paths) and the download
handler (on its stripped path) both respond 400 "outside allowed path";
conversely a 200 response is produced only when the resolved absolute
path has the root as a literal string prefix. -/
theorem C1_path_confinement (fs : FS) (cwd dir p : String) :
    (goHasPrefix p "/_download" = false →
      goHasPrefix (goAbs cwd (goJoin dir p)) dir = false →
      handlerFunc fs cwd dir p = httpError [] "outside allowed path" 400)
    ∧ (∀ q, goRel downloadPrefix p = .ok q →
      goHasPrefix (goAbs cwd (goJoin dir q)) dir = false →
      handleDownload fs cwd dir p
        = httpError [("X-Mediaweb-Handler", "download")] "outside allowed path" 400)
    ∧ ((handlerFunc fs cwd dir p).status = 200 → goHasPrefix p "/_download" = false →
      goHasPrefix (goAbs cwd (goJoin dir p)) dir = true)
    ∧ ((handleDownload fs cwd dir p).status = 200 →
      ∃ q, goRel downloadPrefix p = .ok q
        ∧ goHasPrefix (goAbs cwd (goJoin dir q)) dir = true) := by
  refine ⟨?_, ?_, ?_, ?_⟩
  · intro h1 h2
    simp [handlerFunc, h1, h2]
  · intro q hq hpre
    simp [handleDownload, hq, hpre]
  · intro hs h1
    cases hpre : goHasPrefix (goAbs cwd (goJoin dir p)) dir with
    | false =>
      exfalso
      simp [handlerFunc, h1, hpre, httpError] at hs
    | true => rfl
  · intro hs
    unfold handleDownload at hs
    cases hq : goRel downloadPrefix p with
    | error e => rw [hq] at hs; simp [httpError] at hs
    | ok q =>
      rw [hq] at hs
      cases hpre : goHasPrefix (goAbs cwd (goJoin dir q)) dir with
      | false => simp [hpre, httpError] at hs
      | true => exact ⟨q, rfl, hpre⟩

/-- C1 witness: the spec's traversal example is rejected by both entry
points. -/
theorem C1_path_confinement_witness :
    handlerFunc fsDemo "/" "/srv/media" "/../../etc/passwd"
      = httpError [] "outside allowed path" 400
    ∧ handleDownload fsDemo "/" "/srv/media" "/_download/../../etc/passwd"
      = httpError [("X-Mediaweb-Handler", "download")] "outside allowed path" 400 :=
  ⟨(C1_path_confinement fsDemo "/" "/srv/media" "/../../etc/passwd").1
      (by decide) (by decide),
   (C1_path_confinement fsDemo "/" "/srv/media" "/_download/../../etc/passwd").2.1
      "../etc/passwd" (by rfl) (by decide)⟩

/-- C4: the router dispatches download-prefixed paths to the download
handler first; otherwise it resolves the path against the root (400 on
confinement failure), opens the target (400 on failure), stats it (500
on failure), and dispatches directories to the listing handler and
everything else to the media page handler. -/
theorem C4_router (fs : FS) (cwd dir p : String) :
    (goHasPrefix p "/_download" = true →
      handlerFunc fs cwd dir p = handleDownload fs cwd dir p)
    ∧ (goHasPrefix p "/_download" = false →
       (goHasPrefix (goAbs cwd (goJoin dir p)) dir = false →
          handlerFunc fs cwd dir p = httpError [] "outside allowed path" 400)
       ∧ (goHasPrefix (goAbs cwd (goJoin dir p)) dir = true →
          (∀ e, fs.openErr (goAbs cwd (goJoin dir p)) = some e →
            handlerFunc fs cwd dir p = httpError [] e 400)
          ∧ (fs.openErr (goAbs cwd (goJoin dir p)) = none →
             (∀ e, fs.statErr (goAbs cwd (goJoin dir p)) = some e →
                handlerFunc fs cwd dir p = httpError [] e 500)
             ∧ (fs.statErr (goAbs cwd (goJoin dir p)) = none →
                (fs.isDir (goAbs cwd (goJoin dir p)) = true →
                  handlerFunc fs cwd dir p = handleDir fs (goAbs cwd (goJoin dir p)) p)
                ∧ (fs.isDir (goAbs cwd (goJoin dir p)) = false →
                  handlerFunc fs cwd dir p
                    = handleFile fs (goAbs cwd (goJoin dir p)) p))))) := by
  refine ⟨fun h1 => by simp [handlerFunc, h1], fun h1 => ⟨fun h2 => by simp [handlerFunc, h1, h2],
    fun h2 => ⟨fun e h3 => by simp [handlerFunc, h1, h2, h3],
      fun h3 => ⟨fun e h4 => by simp [handlerFunc, h1, h2, h3, h4],
        fun h4 => ⟨fun h5 => by simp [handlerFunc, h1, h2, h3, h4, h5],
          fun h5 => by simp [handlerFunc, h1, h2, h3, h4, h5]⟩⟩⟩⟩⟩

/-- C4 witness: each router branch observed on a concrete input. -/
theorem C4_router_witness :
    handlerFunc fsDemo "/" "/srv/media" "/_download/clip.mp4"
      = handleDownload fsDemo "/" "/srv/media" "/_download/clip.mp4"
    ∧ handlerFunc fsDemo "/" "/srv/media" "/../../etc/passwd"
      = httpError [] "outside allowed path" 400
    ∧ handlerFunc fsErr "/" "/srv/media" "/gone" = httpError [] "open fail" 400
    ∧ handlerFunc fsErr "/" "/srv/media" "/nostat" = httpError [] "stat fail" 500
    ∧ handlerFunc fsDemo "/" "/srv/media" "/" = handleDir fsDemo "/srv/media" "/"
    ∧ handlerFunc fsDemo "/" "/srv/media" "/clip.mp4"
      = handleFile fsDemo "/srv/media/clip.mp4" "/clip.mp4" :=
  ⟨(C4_router fsDemo "/" "/srv/media" "/_download/clip.mp4").1 (by decide),
   ((C4_router fsDemo "/" "/srv/media" "/../../etc/passwd").2 (by decide)).1 (by decide),
   ((((C4_router fsErr "/" "/srv/media" "/gone").2 (by decide)).2 (by decide)).1
      "open fail" (by decide)),
   (((((C4_router fsErr "/" "/srv/media" "/nostat").2 (by decide)).2 (by decide)).2
      (by decide)).1 "stat fail" (by decide)),
   ((((((C4_router fsDemo "/" "/srv/media" "/").2 (by decide)).2 (by decide)).2
      (by decide)).2 (by decide)).1 (by decide)),
   ((((((C4_router fsDemo "/" "/srv/media" "/clip.mp4").2 (by decide)).2 (by decide)).2
      (by decide)).2 (by decide)).2 (by decide))⟩

/-- C2: a download-prefixed request whose stripped path resolves inside
the root (under the download handler's own confinement check) is
answered with exactly the resolved file's bytes, in order, and a
`Content-Type` header equal to the file's sniffed MIME value. -/
theorem C2_download_bytes (fs : FS) (cwd dir p q : String)
    (hp : goHasPrefix p "/_download" = true)
    (hq : goRel downloadPrefix p = .ok q)
    (hpre : goHasPrefix (goAbs cwd (goJoin dir q)) dir = true)
    (hread : fs.readErr (goAbs cwd (goJoin dir q)) = none)
    (hopen : fs.openErr (goAbs cwd (goJoin dir q)) = none) :
    handlerFunc fs cwd dir p =
      { status := 200
        headers := [("X-Mediaweb-Handler", "download"),
          ("Content-Type",
            (matchBytes ((fs.bytes (goAbs cwd (goJoin dir q))).take 261)).mime.value)]
        body := .bytes (fs.bytes (goAbs cwd (goJoin dir q))) } := by
  simp [handlerFunc, hp, handleDownload, hq, hpre, matchFile, hread, hopen]

/-- C2 witness: the spec's example download request returns the MP4
file's bytes with `Content-Type: video/mp4`. -/
theorem C2_download_bytes_witness :
    handlerFunc fsDemo "/" "/srv/media" "/_download/clip.mp4"
      = { status := 200
          headers := [("X-Mediaweb-Handler", "download"), ("Content-Type", "video/mp4")]
          body := .bytes mp4Bytes } :=
  C2_download_bytes fsDemo "/" "/srv/media" "/_download/clip.mp4" "clip.mp4"
    (by decide) (by rfl) (by decide) (by decide) (by decide)

/-- C3: a successfully listed directory yields exactly one entry per
filesystem child, in enumeration order, navigable exactly when the child
is a subdirectory or its sniffed top-level MIME category is "video";
each navigable entry renders as a link whose target is the
root-anchored parent request path joined with the entry's name. -/
theorem C3_listing_entries (fs : FS) (dirName p : String) (es : List dirEntry)
    (hrd : fs.readdirErr dirName = none)
    (hb : buildEntries fs dirName (fs.children dirName) = .ok es) :
    handleDir fs dirName p =
      { status := 200
        headers := [("X-Mediaweb-Handler", "dir")]
        body := .text (renderDirPage dirName (goJoin "/" p) es) }
    ∧ es.length = (fs.children dirName).length
    ∧ (∀ i (hi : i < (fs.children dirName).length) (he : i < es.length),
        (es.get ⟨i, he⟩).Name = ((fs.children dirName).get ⟨i, hi⟩).name
        ∧ (es.get ⟨i, he⟩).BuildLink
            = (((fs.children dirName).get ⟨i, hi⟩).isDir
               || ((matchBytes ((fs.bytes
                     (goJoin dirName ((fs.children dirName).get ⟨i, hi⟩).name)).take 261)).mime.type
                   == "video")))
    ∧ (∀ e ∈ es, e.BuildLink = true →
        renderDirEntry (goJoin "/" p) e
          = "\n\n<li><a href=\"" ++ goJoin (goJoin "/" p) e.Name ++ "\">"
            ++ goJoin (goJoin "/" p) e.Name ++ "</a></li>\n\n") := by
  have hes := buildEntries_ok fs dirName (fs.children dirName) es hb
  refine ⟨by simp [handleDir, hrd, hb], by rw [hes]; exact List.length_map _ _, ?_, ?_⟩
  · intro i hi he
    subst hes
    rw [List.get_map]
    set info := (fs.children dirName).get ⟨i, hi⟩ with hinfo
    unfold entryOf
    cases hd : info.isDir with
    | true => simp [hd]
    | false => simp [hd]
  · intro e hmem hlink
    simp [renderDirEntry, hlink]

/-- C3 witness: the spec's example directory listing, with `movies`
navigable as a directory, `clip.mp4` navigable as video, and
`notes.txt` plain. -/
theorem C3_listing_entries_witness :
    handleDir fsDemo "/srv/media" "/" =
      { status := 200
        headers := [("X-Mediaweb-Handler", "dir")]
        body := .text (renderDirPage "/srv/media" "/"
          [⟨true, "movies", "directory"⟩, ⟨false, "notes.txt", "unknown"⟩,
           ⟨true, "clip.mp4", "mp4"⟩]) } :=
  (C3_listing_entries fsDemo "/srv/media" "/"
    [⟨true, "movies", "directory"⟩, ⟨false, "notes.txt", "unknown"⟩,
     ⟨true, "clip.mp4", "mp4"⟩] (by decide) (by decide)).1

/-- C9: a directory listing is atomic: the first classification I/O
failure aborts the whole request with a 500 carrying that error and no
listing output, any failing child forces such an abort, and a 200
response is produced only after every child classified successfully. -/
theorem C9_listing_atomic (fs : FS) (dirName p : String)
    (hrd : fs.readdirErr dirName = none) :
    (∀ e, buildEntries fs dirName (fs.children dirName) = .error e →
      handleDir fs dirName p = httpError [("X-Mediaweb-Handler", "dir")] e 500
      ∧ ∃ info ∈ fs.children dirName, info.isDir = false
          ∧ matchFile fs (goJoin dirName info.name) = .error e)
    ∧ ((∃ info ∈ fs.children dirName, info.isDir = false
          ∧ ∃ msg, matchFile fs (goJoin dirName info.name) = .error msg) →
        ∃ e, handleDir fs dirName p = httpError [("X-Mediaweb-Handler", "dir")] e 500)
    ∧ ((handleDir fs dirName p).status = 200 →
        ∃ es, buildEntries fs dirName (fs.children dirName) = .ok es
          ∧ handleDir fs dirName p
              = { status := 200
                  headers := [("X-Mediaweb-Handler", "dir")]
                  body := .text (renderDirPage dirName (goJoin "/" p) es) }) := by
  refine ⟨?_, ?_, ?_⟩
  · intro e he
    exact ⟨by simp [handleDir, hrd, he],
           buildEntries_error fs dirName (fs.children dirName) e he⟩
  · rintro ⟨info, hmem, hdir, msg, hfail⟩
    obtain ⟨e, he⟩ :=
      buildEntries_error_of_mem fs dirName (fs.children dirName) info msg hmem hdir hfail
    exact ⟨e, by simp [handleDir, hrd, he]⟩
  · intro hs
    cases hb : buildEntries fs dirName (fs.children dirName) with
    | error e => exfalso; simp [handleDir, hrd, hb, httpError] at hs
    | ok es => exact ⟨es, rfl, by simp [handleDir, hrd, hb]⟩

/-- C9 witness: one unreadable child aborts the spec-example listing
with its I/O error and a 500, with no listing body. -/
theorem C9_listing_atomic_witness :
    handleDir fsFail "/srv/media" "/"
      = httpError [("X-Mediaweb-Handler", "dir")] "io fail" 500 :=
  ((C9_listing_atomic fsFail "/srv/media" "/" (by decide)).1 "io fail" (by decide)).1

/-- C5 counterexample: the request `/../media/x` against root
`/srv/media` passes confinement (it resolves to `/srv/media/x`) and gets
a player page, but the page's source attribute is `/_download/media/x`,
which is neither `filepath.Join` of the download prefix and the request
path (`/media/x`) nor their concatenation (`/_download/../media/x`). -/
theorem C5_counterexample :
    handlerFunc fsDemo "/" "/srv/media" "/../media/x"
      = { status := 200
          headers := [("X-Mediaweb-Handler", "file"), ("X-Mediaweb-Type", fmtFileType unknownKind)]
          body := .text (renderFilePage "/_download/media/x" "") }
    ∧ goHasPrefix (goAbs "/" (goJoin "/srv/media" "/../media/x")) "/srv/media" = true
    ∧ goJoin downloadPrefix "/../media/x" = "/media/x"
    ∧ downloadPrefix ++ "/../media/x" = "/_download/../media/x"
    ∧ renderFilePage "/_download/media/x" "" ≠ renderFilePage "/media/x" ""
    ∧ renderFilePage "/_download/media/x" "" ≠ renderFilePage "/_download/../media/x" "" := by
  decide

/-- C5 (amended): a confined single-file request yields a player page
whose source attribute is the download prefix joined with the
root-anchored cleaned request path (`filepath.Join("/", requestPath)`)
and whose type attribute is the classified MIME value — the empty
string when classification is unknown — with no gating on the video
category. -/
theorem C5_player_page (fs : FS) (fileName p : String)
    (hread : fs.readErr fileName = none) :
    handleFile fs fileName p =
      { status := 200
        headers := [("X-Mediaweb-Handler", "file"),
                    ("X-Mediaweb-Type", fmtFileType (matchBytes ((fs.bytes fileName).take 261)))]
        body := .text (renderFilePage (goJoin downloadPrefix (goJoin "/" p))
                  (matchBytes ((fs.bytes fileName).take 261)).mime.value) }
    ∧ (matchBytes ((fs.bytes fileName).take 261) = unknownKind →
        (matchBytes ((fs.bytes fileName).take 261)).mime.value = "") := by
  constructor
  · simp [handleFile, matchFile, hread]
  · intro hu; rw [hu]; rfl

/-- C5 witness: the spec example `/clip.mp4` produces a player page with
source `/_download/clip.mp4` and type `video/mp4`, and a type-less file
(`notes.txt`) still gets a player page, with an empty type attribute. -/
theorem C5_player_page_witness :
    handleFile fsDemo "/srv/media/clip.mp4" "/clip.mp4"
      = { status := 200
          headers := [("X-Mediaweb-Handler", "file"),
                      ("X-Mediaweb-Type",
                        "\x7bMIME:\x7bType:video Subtype:mp4 Value:video/mp4\x7d Extension:mp4\x7d")]
          body := .text (renderFilePage "/_download/clip.mp4" "video/mp4") }
    ∧ handleFile fsDemo "/srv/media/notes.txt" "/notes.txt"
      = { status := 200
          headers := [("X-Mediaweb-Handler", "file"),
                      ("X-Mediaweb-Type",
                        "\x7bMIME:\x7bType: Subtype: Value:\x7d Extension:unknown\x7d")]
          body := .text (renderFilePage "/_download/notes.txt" "") } :=
  ⟨(C5_player_page fsDemo "/srv/media/clip.mp4" "/clip.mp4" (by decide)).1,
   (C5_player_page fsDemo "/srv/media/notes.txt" "/notes.txt" (by decide)).1⟩

/-- C6 counterexample: the router's own confinement rejection is a
response carrying no handler-identification header at all. -/
theorem C6_counterexample :
    (handlerFunc fsDemo "/" "/srv/media" "/../../etc/passwd").status = 400
    ∧ lookupHeader "X-Mediaweb-Handler"
        (handlerFunc fsDemo "/" "/srv/media" "/../../etc/passwd") = none := by
  decide

/-- C6 (amended): every response produced by one of the three handlers
carries the handler-identification header with value `dir`, `file` or
`download` respectively, and successful single-file page responses also
carry the full sniffed-type diagnostic header; but responses the router
emits itself (confinement failure, open failure, stat failure) carry no
handler-identification header, so every server response either carries
one of the three values or is a 400/500 router error without one. -/
theorem C6_handler_header (fs : FS) (cwd dir p fileName dirName : String) :
    lookupHeader "X-Mediaweb-Handler" (handleDir fs dirName p) = some "dir"
    ∧ lookupHeader "X-Mediaweb-Handler" (handleFile fs fileName p) = some "file"
    ∧ lookupHeader "X-Mediaweb-Handler" (handleDownload fs cwd dir p) = some "download"
    ∧ ((handleFile fs fileName p).status = 200 →
        lookupHeader "X-Mediaweb-Type" (handleFile fs fileName p)
          = some (fmtFileType (matchBytes ((fs.bytes fileName).take 261))))
    ∧ (lookupHeader "X-Mediaweb-Handler" (handlerFunc fs cwd dir p) = some "dir"
       ∨ lookupHeader "X-Mediaweb-Handler" (handlerFunc fs cwd dir p) = some "file"
       ∨ lookupHeader "X-Mediaweb-Handler" (handlerFunc fs cwd dir p) = some "download"
       ∨ (lookupHeader "X-Mediaweb-Handler" (handlerFunc fs cwd dir p) = none
          ∧ ((handlerFunc fs cwd dir p).status = 400
             ∨ (handlerFunc fs cwd dir p).status = 500))) := by
  have hdir : ∀ dn, lookupHeader "X-Mediaweb-Handler" (handleDir fs dn p) = some "dir" := by
    intro dn
    unfold handleDir
    cases fs.readdirErr dn with
    | some e => rfl
    | none =>
      cases buildEntries fs dn (fs.children dn) with
      | error e => rfl
      | ok es => rfl
  have hfile : ∀ fn, lookupHeader "X-Mediaweb-Handler" (handleFile fs fn p) = some "file" := by
    intro fn
    unfold handleFile
    cases matchFile fs fn with
    | error e => rfl
    | ok ft => rfl
  have hdl : lookupHeader "X-Mediaweb-Handler" (handleDownload fs cwd dir p) = some "download" := by
    unfold handleDownload
    cases goRel downloadPrefix p with
    | error e => rfl
    | ok q =>
      simp only []
      cases goHasPrefix (goAbs cwd (goJoin dir q)) dir with
      | false => rfl
      | true =>
        simp only [Bool.not_true, if_false]
        cases matchFile fs (goAbs cwd (goJoin dir q)) with
        | error e => rfl
        | ok ft =>
          cases fs.openErr (goAbs cwd (goJoin dir q)) with
          | some e => rfl
          | none =>
            cases fs.readErr (goAbs cwd (goJoin dir q)) with
            | some e => rfl
            | none => rfl
  refine ⟨hdir dirName, hfile fileName, hdl, ?_, ?_⟩
  · intro hs
    unfold handleFile at hs ⊢
    cases hm : matchFile fs fileName with
    | error e => rw [hm] at hs; simp [httpError] at hs
    | ok ft =>
      obtain ⟨-, hft⟩ := matchFile_ok fs fileName ft hm
      subst hft
      rfl
  · unfold handlerFunc
    cases goHasPrefix p "/_download" with
    | true => exact .inr (.inr (.inl hdl))
    | false =>
      simp only [Bool.false_eq_true, if_false]
      cases goHasPrefix (goAbs cwd (goJoin dir p)) dir with
      | false => exact .inr (.inr (.inr ⟨rfl, .inl rfl⟩))
      | true =>
        simp only [Bool.not_true, if_false]
        cases fs.openErr (goAbs cwd (goJoin dir p)) with
        | some e => exact .inr (.inr (.inr ⟨rfl, .inl rfl⟩))
        | none =>
          cases fs.statErr (goAbs cwd (goJoin dir p)) with
          | some e => exact .inr (.inr (.inr ⟨rfl, .inr rfl⟩))
          | none =>
            cases fs.isDir (goAbs cwd (goJoin dir p)) with
            | true => exact .inl (hdir _)
            | false => exact .inr (.inl (hfile _))

/-- C6 witness: concrete responses from the three handlers and the
sniffed-type diagnostic on the example MP4 page. -/
theorem C6_handler_header_witness :
    lookupHeader "X-Mediaweb-Handler" (handleDir fsDemo "/srv/media" "/") = some "dir"
    ∧ lookupHeader "X-Mediaweb-Handler"
        (handleFile fsDemo "/srv/media/clip.mp4" "/clip.mp4") = some "file"
    ∧ lookupHeader "X-Mediaweb-Handler"
        (handleDownload fsDemo "/" "/srv/media" "/_download/clip.mp4") = some "download"
    ∧ lookupHeader "X-Mediaweb-Type" (handleFile fsDemo "/srv/media/clip.mp4" "/clip.mp4")
        = some "\x7bMIME:\x7bType:video Subtype:mp4 Value:video/mp4\x7d Extension:mp4\x7d" := by
  obtain ⟨h1, h2, h3, h4, -⟩ :=
    C6_handler_header fsDemo "/" "/srv/media" "/_download/clip.mp4"
      "/srv/media/clip.mp4" "/srv/media"
  exact ⟨h1, h2, h3, h4 (by decide)⟩

/-- C7: classification is a deterministic function of a file's leading
bytes alone: any two readable files with the same contents classify
identically, whatever their paths or names, and the result is exactly
the signature match on the first 261 bytes. -/
theorem C7_classification_bytes_only (fs1 fs2 : FS) (p1 p2 : String)
    (h1 : fs1.readErr p1 = none) (h2 : fs2.readErr p2 = none)
    (hb : fs1.bytes p1 = fs2.bytes p2) :
    matchFile fs1 p1 = matchFile fs2 p2
    ∧ matchFile fs1 p1 = .ok (matchBytes ((fs1.bytes p1).take 261)) := by
  constructor
  · simp [matchFile, h1, h2, hb]
  · simp [matchFile, h1]

/-- C7 witness: the MP4-signature file renamed `video.txt` classifies
exactly as `clip.mp4` does — as video/mp4. -/
theorem C7_classification_bytes_only_witness :
    matchFile fsDemo "/srv/media/clip.mp4" = matchFile fsRenamed "/srv/media/video.txt"
    ∧ matchFile fsDemo "/srv/media/clip.mp4"
        = .ok ⟨⟨"video", "mp4", "video/mp4"⟩, "mp4"⟩ :=
  ⟨(C7_classification_bytes_only fsDemo fsRenamed "/srv/media/clip.mp4" "/srv/media/video.txt"
      (by decide) (by decide) (by decide)).1,
   (C7_classification_bytes_only fsDemo fsRenamed "/srv/media/clip.mp4" "/srv/media/video.txt"
      (by decide) (by decide) (by decide)).2⟩

/-- C8 counterexample: a non-navigable file sniffed as `png` is listed,
the listing succeeds, and the rendered page nowhere contains the string
"png" — the sniffed type label is not displayed. -/
theorem C8_counterexample :
    buildEntries fsPngDir "/d" (fsPngDir.children "/d")
      = .ok [⟨false, "image1.dat", "png"⟩]
    ∧ (handleDir fsPngDir "/d" "/d").status = 200
    ∧ strContains (bodyText (handleDir fsPngDir "/d" "/d").body) "png" = false := by
  decide

/-- C8 (amended): a non-navigable entry is rendered as plain non-linked
text showing only the joined name — the template never renders the
`Type` field, although the handler computes it ("directory" for
subdirectories, the sniffed extension for files). -/
theorem C8_plain_entries (parent : String) (e : dirEntry) (fs : FS) (d : String)
    (info : FileInfo) :
    (e.BuildLink = false →
      renderDirEntry parent e = "\n\n<li>" ++ goJoin parent e.Name ++ "</li>\n\n")
    ∧ (∀ t, renderDirEntry parent { e with «Type» := t } = renderDirEntry parent e)
    ∧ (info.isDir = true → classifyInfo fs d info = .ok ⟨true, info.name, "directory"⟩)
    ∧ (info.isDir = false → fs.readErr (goJoin d info.name) = none →
        classifyInfo fs d info
          = .ok ⟨(matchBytes ((fs.bytes (goJoin d info.name)).take 261)).mime.type == "video",
                 info.name,
                 (matchBytes ((fs.bytes (goJoin d info.name)).take 261)).extension⟩) := by
  refine ⟨fun h => by simp [renderDirEntry, h], fun t => by simp [renderDirEntry], ?_, ?_⟩
  · intro h
    simp [classifyInfo, h]
  · intro h hr
    simp [classifyInfo, h, matchFile, hr]

/-- C8 amended-claim witness: the PNG-signature entry renders as a
plain list item showing only `/d/image1.dat`, and its computed entry
carries the sniffed extension label. -/
theorem C8_plain_entries_witness :
    renderDirEntry "/d" ⟨false, "image1.dat", "png"⟩ = "\n\n<li>/d/image1.dat</li>\n\n"
    ∧ classifyInfo fsPngDir "/d" ⟨"image1.dat", false⟩ = .ok ⟨false, "image1.dat", "png"⟩ := by
  have h := C8_plain_entries "/d" ⟨false, "image1.dat", "png"⟩ fsPngDir "/d" ⟨"image1.dat", false⟩
  exact ⟨h.1 (by decide), h.2.2.2 (by decide) (by decide)⟩

/-- C10: the literal string-prefix confinement check admits sibling
directories whose name extends the root's: against root `/srv/media`,
the request `/../media2/secret.png` resolves to `/srv/media2/secret.png`
— outside the root — yet passes the check and is served (as is the
matching download request, which streams the sibling file's bytes). -/
theorem C10_sibling_prefix_escape :
    goAbs "/" (goJoin "/srv/media" "/../media2/secret.png") = "/srv/media2/secret.png"
    ∧ goHasPrefix "/srv/media2/secret.png" "/srv/media" = true
    ∧ goHasPrefix "/srv/media2/secret.png" ("/srv/media" ++ "/") = false
    ∧ "/srv/media2/secret.png" ≠ "/srv/media"
    ∧ (handlerFunc fsDemo "/" "/srv/media" "/../media2/secret.png").status = 200
    ∧ (handlerFunc fsDemo "/" "/srv/media" "/_download/../media2/secret.png").status = 200
    ∧ (handlerFunc fsDemo "/" "/srv/media" "/_download/../media2/secret.png").body
        = .bytes pngBytes := by
  decide

end Mediaweb
